import Mathlib

/-!
# TMP116 temperature-sensor driver: register codecs and configuration merge

Shallow embedding of the TMP116 driver (`Inc/TMP116.hpp`, `Src/TMP116.cpp`).

* `Register` (`uint16_t`) is modelled as `Nat`; every mask the code applies
  keeps values below `2 ^ 16`, and theorems that need the 16-bit range state
  it as a hypothesis.
* The `float` arithmetic of the temperature codec is modelled with `ℚ`.
  Every `float` operation the code performs on the values the claims exercise
  is exact: `decode` multiplies an integer of magnitude at most `2 ^ 15`
  (exactly representable in a 24-bit significand) by `2 ^ (-7)`
  (`0.0078125f`, a power of two, so the product only shifts the exponent),
  and `encode` divides such a product by the same power of two.  Hence the
  rational model computes bit-for-bit the same values as IEEE-754 `float`.
* The I2C transport (`TMP116::I2C`) is a pure read/write function pair, and
  every driver operation additionally returns the list of transport calls it
  issued, so that claims about call counts are statable.
-/

namespace TMP116

/-- `TMP116::I2C::Register` values carried on the wire (`uint16_t`). -/
abbrev Register := Nat

/-- Temperature register memory address (`TMP116_TEMP_REG_ADDR`). -/
def TMP116_TEMP_REG_ADDR : Nat := 0x00

/-- Configuration register memory address (`TMP116_CFGR_REG_ADDR`). -/
def TMP116_CFGR_REG_ADDR : Nat := 0x01

/-- High limit register memory address (`TMP116_HIGH_LIM_REG_ADDR`). -/
def TMP116_HIGH_LIM_REG_ADDR : Nat := 0x02

/-- Low limit register memory address (`TMP116_LOW_LIM_REG_ADDR`). -/
def TMP116_LOW_LIM_REG_ADDR : Nat := 0x03

/-- Device ID register memory address (`TMP116_DEVICE_ID_REG_ADDR`). -/
def TMP116_DEVICE_ID_REG_ADDR : Nat := 0x0F

/-- `TMP116_LSB_TEMPERATURE_RESOLUTION` (`0.0078125f`, exactly `1 / 128`). -/
def TMP116_LSB_TEMPERATURE_RESOLUTION : ℚ := 0.0078125

/-! ## Temperature codec -/

/-- `static_cast<int16_t>(uint16_t)`: two's-complement reinterpretation. -/
def toInt16 (r : Nat) : Int :=
  if r % 65536 < 32768 then ((r % 65536 : Nat) : Int)
  else ((r % 65536 : Nat) : Int) - 65536

/-- `static_cast<uint16_t>(int)` on the way back out: wrap modulo `2 ^ 16`. -/
def toRegister (i : Int) : Nat := (i % 65536).toNat

/-- `static_cast<int16_t>(float)`: truncation toward zero.  `Int.div` on
`num / den` (with `den > 0`) is exactly T-division, i.e. toward zero. -/
def truncTowardZero (q : ℚ) : Int := q.num.tdiv (q.den : Int)

/-- `convertTemperatureRegister(Register)`: reinterpret as signed
two's-complement and multiply by the resolution. -/
def convertTemperatureRegisterToFloat (registerValue : Register) : ℚ :=
  (toInt16 registerValue : ℚ) * TMP116_LSB_TEMPERATURE_RESOLUTION

/-- `convertTemperatureRegister(float)`: divide by the resolution, truncate
toward zero to `int16_t`, reinterpret as `uint16_t`. -/
def convertTemperatureRegisterToRegister (temperature : ℚ) : Register :=
  toRegister (truncTowardZero (temperature / TMP116_LSB_TEMPERATURE_RESOLUTION))

/-! ## Configuration codec (`TMP116::Config`) -/

/-- `Config::Averages`. -/
inductive Averages where
  | AVG_1
  | AVG_8
  | AVG_32
  | AVG_64
deriving DecidableEq

/-- Raw bit pattern of an `Averages` variant (the enum's underlying value). -/
def Averages.val : Averages → Register
  | .AVG_1  => 0x0000
  | .AVG_8  => 0x0020
  | .AVG_32 => 0x0040
  | .AVG_64 => 0x0060

/-- `static_cast<Averages>(bits)` for `bits = register & 0x0060`; every
masked pattern is a declared enumerator, so the catch-all arm is dead. -/
def Averages.ofBits (b : Register) : Averages :=
  if b = 0x0020 then .AVG_8
  else if b = 0x0040 then .AVG_32
  else if b = 0x0060 then .AVG_64
  else .AVG_1

/-- `Config::TemperatureConversionMode`. -/
inductive TemperatureConversionMode where
  | CONTINUOUS
  | SHUTDOWN
  | ONESHOT
deriving DecidableEq

/-- Raw bit pattern of a `TemperatureConversionMode` variant. -/
def TemperatureConversionMode.val : TemperatureConversionMode → Register
  | .CONTINUOUS => 0x0000
  | .SHUTDOWN   => 0x0400
  | .ONESHOT    => 0x0C00

/-- `static_cast<TemperatureConversionMode>(bits)` for
`bits = register & 0x0C00` after the alias fold; `0x0800` never reaches this
cast, so the catch-all arm is dead. -/
def TemperatureConversionMode.ofBits (b : Register) : TemperatureConversionMode :=
  if b = 0x0400 then .SHUTDOWN
  else if b = 0x0C00 then .ONESHOT
  else .CONTINUOUS

/-- `Config::ConversionCycleTime`. -/
inductive ConversionCycleTime where
  | CONV_15_5MS
  | CONV_125MS
  | CONV_250MS
  | CONV_500MS
  | CONV_1000MS
  | CONV_4000MS
  | CONV_8000MS
  | CONV_16000MS
deriving DecidableEq

/-- Raw bit pattern of a `ConversionCycleTime` variant (`0bxxx << 7`). -/
def ConversionCycleTime.val : ConversionCycleTime → Register
  | .CONV_15_5MS  => 0x0000
  | .CONV_125MS   => 0x0080
  | .CONV_250MS   => 0x0100
  | .CONV_500MS   => 0x0180
  | .CONV_1000MS  => 0x0200
  | .CONV_4000MS  => 0x0280
  | .CONV_8000MS  => 0x0300
  | .CONV_16000MS => 0x0380

/-- `static_cast<ConversionCycleTime>(bits)` for `bits = register & 0x0380`;
all eight patterns are declared enumerators, so the catch-all arm is dead. -/
def ConversionCycleTime.ofBits (b : Register) : ConversionCycleTime :=
  if b = 0x0080 then .CONV_125MS
  else if b = 0x0100 then .CONV_250MS
  else if b = 0x0180 then .CONV_500MS
  else if b = 0x0200 then .CONV_1000MS
  else if b = 0x0280 then .CONV_4000MS
  else if b = 0x0300 then .CONV_8000MS
  else if b = 0x0380 then .CONV_16000MS
  else .CONV_15_5MS

/-- `Config::ThermalAlertModeSelect`. -/
inductive ThermalAlertModeSelect where
  | THERM
  | ALERT
deriving DecidableEq

/-- Raw bit pattern of a `ThermalAlertModeSelect` variant. -/
def ThermalAlertModeSelect.val : ThermalAlertModeSelect → Register
  | .THERM => 0x0010
  | .ALERT => 0x0000

/-- `static_cast<ThermalAlertModeSelect>(bits)` for `bits = register & 0x0010`. -/
def ThermalAlertModeSelect.ofBits (b : Register) : ThermalAlertModeSelect :=
  if b = 0x0010 then .THERM else .ALERT

/-- `Config::AlertPolarity`. -/
inductive AlertPolarity where
  | ACTIVE_HIGH
  | ACTIVE_LOW
deriving DecidableEq

/-- Raw bit pattern of an `AlertPolarity` variant. -/
def AlertPolarity.val : AlertPolarity → Register
  | .ACTIVE_HIGH => 0x0008
  | .ACTIVE_LOW  => 0x0000

/-- `static_cast<AlertPolarity>(bits)` for `bits = register & 0x0008`. -/
def AlertPolarity.ofBits (b : Register) : AlertPolarity :=
  if b = 0x0008 then .ACTIVE_HIGH else .ACTIVE_LOW

/-- `Config::DataReadyAlertPinSelect`. -/
inductive DataReadyAlertPinSelect where
  | DATA_READY
  | ALERT
deriving DecidableEq

/-- Raw bit pattern of a `DataReadyAlertPinSelect` variant. -/
def DataReadyAlertPinSelect.val : DataReadyAlertPinSelect → Register
  | .DATA_READY => 0x0004
  | .ALERT      => 0x0000

/-- `static_cast<DataReadyAlertPinSelect>(bits)` for `bits = register & 0x0004`. -/
def DataReadyAlertPinSelect.ofBits (b : Register) : DataReadyAlertPinSelect :=
  if b = 0x0004 then .DATA_READY else .ALERT

/-- `TMP116::Config`: four read-only status flags and six writable fields. -/
structure Config where
  highAlertFlag : Bool
  lowAlertFlag : Bool
  dataReadyFlag : Bool
  eepromBusyFlag : Bool
  temperatureConversionMode : TemperatureConversionMode
  conversionCycleTime : ConversionCycleTime
  averages : Averages
  thermalAlertMode : ThermalAlertModeSelect
  alertPolarity : AlertPolarity
  dataReadyAlertSelection : DataReadyAlertPinSelect
deriving DecidableEq

/-- `Config{}`: the in-class member initialisers of `TMP116::Config`
(the TMP116 power-on default configuration). -/
def Config.default : Config where
  highAlertFlag := false
  lowAlertFlag := false
  dataReadyFlag := false
  eepromBusyFlag := false
  temperatureConversionMode := .CONTINUOUS
  conversionCycleTime := .CONV_1000MS
  averages := .AVG_8
  thermalAlertMode := .ALERT
  alertPolarity := .ACTIVE_LOW
  dataReadyAlertSelection := .ALERT

/-- `TMP116::Config::Config(Register)`: extract the four flag bits, fold the
`0b10` conversion-mode alias to `0b00`, then mask out each writable field. -/
def decodeConfig (configRegister : Register) : Config :=
  let highAlertFlag := decide (configRegister &&& 0x8000 ≠ 0)
  let lowAlertFlag := decide (configRegister &&& 0x4000 ≠ 0)
  let dataReadyFlag := decide (configRegister &&& 0x2000 ≠ 0)
  let eepromBusyFlag := decide (configRegister &&& 0x1000 ≠ 0)
  let configRegister :=
    if configRegister &&& 0x0C00 = 0x0800 then configRegister &&& 0xF3FF
    else configRegister
  { highAlertFlag := highAlertFlag
    lowAlertFlag := lowAlertFlag
    dataReadyFlag := dataReadyFlag
    eepromBusyFlag := eepromBusyFlag
    temperatureConversionMode := .ofBits (configRegister &&& 0x0C00)
    conversionCycleTime := .ofBits (configRegister &&& 0x0380)
    averages := .ofBits (configRegister &&& 0x0060)
    thermalAlertMode := .ofBits (configRegister &&& 0x0010)
    alertPolarity := .ofBits (configRegister &&& 0x0008)
    dataReadyAlertSelection := .ofBits (configRegister &&& 0x0004) }

/-- `TMP116::Config::Config(...)`: the six-argument constructor;
the flag members keep their `false` initialisers. -/
def Config.ofFields (temperatureConversionMode : TemperatureConversionMode)
    (conversionCycleTime : ConversionCycleTime) (averages : Averages)
    (thermalAlertMode : ThermalAlertModeSelect) (alertPolarity : AlertPolarity)
    (dataReadyAlertSelection : DataReadyAlertPinSelect) : Config where
  highAlertFlag := false
  lowAlertFlag := false
  dataReadyFlag := false
  eepromBusyFlag := false
  temperatureConversionMode := temperatureConversionMode
  conversionCycleTime := conversionCycleTime
  averages := averages
  thermalAlertMode := thermalAlertMode
  alertPolarity := alertPolarity
  dataReadyAlertSelection := dataReadyAlertSelection

/-- The same configuration with the four read-only status flags cleared
(used to state that the flags contribute nothing to the encoder). -/
def Config.clearFlags (c : Config) : Config :=
  { c with highAlertFlag := false, lowAlertFlag := false,
           dataReadyFlag := false, eepromBusyFlag := false }

/-- `TMP116::Config::operator Register()`: bitwise OR of the six writable
fields' patterns; the read-only flags contribute nothing. -/
def encodeConfig (c : Config) : Register :=
  c.temperatureConversionMode.val ||| c.conversionCycleTime.val |||
    c.averages.val ||| c.thermalAlertMode.val ||| c.alertPolarity.val |||
    c.dataReadyAlertSelection.val

/-! ## Transport model and driver facade -/

/-- One transport call, recorded for the claims about call counts. -/
inductive Event where
  | read (deviceAddress memoryAddress : Nat)
  | write (deviceAddress memoryAddress : Nat) (data : Register)
deriving DecidableEq

/-- `TMP116::I2C`: the external transport collaborator, as a pure pair of
functions (a call either yields a register value or fails). -/
structure I2CPort where
  readFn : Nat → Nat → Option Register
  writeFn : Nat → Nat → Register → Option Register

/-- The driver: a transport and a device address. -/
structure Driver where
  i2c : I2CPort
  deviceAddress : Nat

/-- `TMP116::getTemperature`: decode a successful read of the temperature
register; map a failed read to the literal sentinel `-256.0f`. -/
def Driver.getTemperature (t : Driver) : ℚ × List Event :=
  match t.i2c.readFn t.deviceAddress TMP116_TEMP_REG_ADDR with
  | some registerValue =>
      (convertTemperatureRegisterToFloat registerValue,
        [Event.read t.deviceAddress TMP116_TEMP_REG_ADDR])
  | none => (-256, [Event.read t.deviceAddress TMP116_TEMP_REG_ADDR])

/-- `TMP116::getConfigRegister`: one read of the configuration register. -/
def Driver.getConfigRegister (t : Driver) : Option Register × List Event :=
  (t.i2c.readFn t.deviceAddress TMP116_CFGR_REG_ADDR,
    [Event.read t.deviceAddress TMP116_CFGR_REG_ADDR])

/-- `TMP116::getConfig`: decode the configuration register if the read
succeeded. -/
def Driver.getConfig (t : Driver) : Option Config × List Event :=
  match t.getConfigRegister with
  | (some registerValue, ev) => (some (decodeConfig registerValue), ev)
  | (none, ev) => (none, ev)

/-- `TMP116::dataReady`: read the configuration and return its data-ready
flag. -/
def Driver.dataReady (t : Driver) : Option Bool × List Event :=
  match t.getConfig with
  | (some config, ev) => (some config.dataReadyFlag, ev)
  | (none, ev) => (none, ev)

/-- `TMP116::setConfig(Config)`: one unconditional write of the encoded
register. -/
def Driver.setConfig (t : Driver) (config : Config) : Option Register × List Event :=
  (t.i2c.writeFn t.deviceAddress TMP116_CFGR_REG_ADDR (encodeConfig config),
    [Event.write t.deviceAddress TMP116_CFGR_REG_ADDR (encodeConfig config)])

/-- The six `if (x.has_value()) config.x = x.value();` statements of the
partial `setConfig`. -/
def Config.applyOverrides (c : Config)
    (temperatureConversionMode : Option TemperatureConversionMode)
    (conversionCycleTime : Option ConversionCycleTime)
    (averages : Option Averages)
    (thermalAlertMode : Option ThermalAlertModeSelect)
    (alertPolarity : Option AlertPolarity)
    (dataReadyAlertSelection : Option DataReadyAlertPinSelect) : Config :=
  let c := match temperatureConversionMode with
    | some v => { c with temperatureConversionMode := v }
    | none => c
  let c := match conversionCycleTime with
    | some v => { c with conversionCycleTime := v }
    | none => c
  let c := match averages with
    | some v => { c with averages := v }
    | none => c
  let c := match thermalAlertMode with
    | some v => { c with thermalAlertMode := v }
    | none => c
  let c := match alertPolarity with
    | some v => { c with alertPolarity := v }
    | none => c
  match dataReadyAlertSelection with
    | some v => { c with dataReadyAlertSelection := v }
    | none => c

/-- `TMP116::setConfig(six optionals)`: fail when no override is supplied;
write directly when all six are supplied; otherwise read-modify-write, with
the write elided when the merged configuration re-encodes to the same
register as the configuration that was just read. -/
def Driver.setConfigPartial (t : Driver)
    (temperatureConversionMode : Option TemperatureConversionMode)
    (conversionCycleTime : Option ConversionCycleTime)
    (averages : Option Averages)
    (thermalAlertMode : Option ThermalAlertModeSelect)
    (alertPolarity : Option AlertPolarity)
    (dataReadyAlertSelection : Option DataReadyAlertPinSelect) :
    Option Register × List Event :=
  if temperatureConversionMode.isNone && conversionCycleTime.isNone &&
      averages.isNone && thermalAlertMode.isNone && alertPolarity.isNone &&
      dataReadyAlertSelection.isNone then
    (none, [])
  else
    match temperatureConversionMode, conversionCycleTime, averages,
        thermalAlertMode, alertPolarity, dataReadyAlertSelection with
    | some a, some b, some c, some d, some e, some f =>
        t.setConfig (Config.ofFields a b c d e f)
    | tcm?, cct?, avg?, tam?, ap?, dras? =>
        match t.getConfig with
        | (none, ev) => (none, ev)
        | (some current, ev) =>
            let config := current.applyOverrides tcm? cct? avg? tam? ap? dras?
            if encodeConfig config = encodeConfig current then
              (some (encodeConfig config), ev)
            else
              let (res, ev2) := t.setConfig config
              (res, ev ++ ev2)

/-- `TMP116::setHighLimit`: encode the temperature and write it. -/
def Driver.setHighLimit (t : Driver) (temperature : ℚ) : Option Register × List Event :=
  let registerValue := convertTemperatureRegisterToRegister temperature
  (t.i2c.writeFn t.deviceAddress TMP116_HIGH_LIM_REG_ADDR registerValue,
    [Event.write t.deviceAddress TMP116_HIGH_LIM_REG_ADDR registerValue])

/-- `TMP116::setLowLimit`: encode the temperature and write it. -/
def Driver.setLowLimit (t : Driver) (temperature : ℚ) : Option Register × List Event :=
  let registerValue := convertTemperatureRegisterToRegister temperature
  (t.i2c.writeFn t.deviceAddress TMP116_LOW_LIM_REG_ADDR registerValue,
    [Event.write t.deviceAddress TMP116_LOW_LIM_REG_ADDR registerValue])

/-- A transport whose reads always yield `r` and whose writes echo the
written value (the mock used to exercise the merge scenarios). -/
def i2cConst (r : Register) : I2CPort where
  readFn := fun _ _ => some r
  writeFn := fun _ _ data => some data

/-- A transport on which every call fails. -/
def i2cDead : I2CPort where
  readFn := fun _ _ => none
  writeFn := fun _ _ _ => none

/-! ## Helper lemmas -/

/-- Truncation toward zero of an integer-valued rational is the integer. -/
theorem truncTowardZero_intCast (i : Int) : truncTowardZero (i : ℚ) = i := by
  simp [truncTowardZero, Rat.num_intCast, Rat.den_intCast, Int.tdiv_one]

/-- The `uint16 → int16 → uint16` cast chain is the identity on 16-bit
values. -/
theorem toRegister_toInt16 (r : Nat) (h : r < 65536) :
    toRegister (toInt16 r) = r := by
  unfold toRegister toInt16
  split <;> omega

/-- The writable fields alone determine the two properties C5 needs of the
encoder: bits 1..0 and bits 15..12 of the output are zero. -/
theorem encodeConfig_ofFields_masks (a : TemperatureConversionMode)
    (b : ConversionCycleTime) (c : Averages) (d : ThermalAlertModeSelect)
    (e : AlertPolarity) (f : DataReadyAlertPinSelect) :
    encodeConfig (Config.ofFields a b c d e f) % 4 = 0 ∧
      encodeConfig (Config.ofFields a b c d e f) < 0x1000 := by
  cases a <;> cases b <;> cases c <;> cases d <;> cases e <;> cases f <;> decide

/-- Decode after encode is the identity on a configuration built from the
six writable fields (whose flags are all `false`). -/
theorem decodeConfig_encodeConfig_ofFields (a : TemperatureConversionMode)
    (b : ConversionCycleTime) (c : Averages) (d : ThermalAlertModeSelect)
    (e : AlertPolarity) (f : DataReadyAlertPinSelect) :
    decodeConfig (encodeConfig (Config.ofFields a b c d e f)) =
      Config.ofFields a b c d e f := by
  cases a <;> cases b <;> cases c <;> cases d <;> cases e <;> cases f <;> decide

/-- When the configuration-register read succeeds with `r`, `getConfig`
returns the decoded configuration and exactly one read event. -/
theorem getConfig_read_some (t : Driver) (r : Register)
    (h : t.i2c.readFn t.deviceAddress TMP116_CFGR_REG_ADDR = some r) :
    t.getConfig = (some (decodeConfig r),
      [Event.read t.deviceAddress TMP116_CFGR_REG_ADDR]) := by
  simp [Driver.getConfig, Driver.getConfigRegister, h]

/-- When the configuration-register read fails, `getConfig` returns no
configuration and exactly one read event. -/
theorem getConfig_read_none (t : Driver)
    (h : t.i2c.readFn t.deviceAddress TMP116_CFGR_REG_ADDR = none) :
    t.getConfig = (none, [Event.read t.deviceAddress TMP116_CFGR_REG_ADDR]) := by
  simp [Driver.getConfig, Driver.getConfigRegister, h]

/-! ## Claim theorems -/

/-- C3: for every 16-bit register value `r`, decoding `r` as a signed
two's-complement value times `0.0078125` and re-encoding by dividing by
`0.0078125` with truncation toward zero reproduces `r` bit-for-bit. -/
theorem C3_temperature_roundtrip (r : Register) (h : r < 65536) :
    convertTemperatureRegisterToRegister (convertTemperatureRegisterToFloat r) = r := by
  have hres : TMP116_LSB_TEMPERATURE_RESOLUTION ≠ 0 := by
    norm_num [TMP116_LSB_TEMPERATURE_RESOLUTION]
  unfold convertTemperatureRegisterToRegister convertTemperatureRegisterToFloat
  rw [mul_div_cancel_right₀ _ hres, truncTowardZero_intCast, toRegister_toInt16 r h]

/-- Witness for C3 at the concrete register `0xFFFF`. -/
theorem C3_temperature_roundtrip_witness :
    (0xFFFF : Register) < 65536 ∧
      convertTemperatureRegisterToRegister (convertTemperatureRegisterToFloat 0xFFFF) = 0xFFFF :=
  ⟨by decide, C3_temperature_roundtrip 0xFFFF (by decide)⟩

/-- C9: the default-constructed configuration encodes to `0x0220`, the
TMP116 power-on default configuration register value. -/
theorem C9_default_config_encodes_to_power_on_value :
    encodeConfig Config.default = 0x0220 := by decide

/-- C2 counterexample: encoding the decode of `0xAAAA` does not yield
`0xA2A8`; the status-flag bits are genuinely absent from the output. -/
theorem C2_lossy_roundtrip_counterexample :
    encodeConfig (decodeConfig 0xAAAA) ≠ 0xA2A8 := by decide

/-- C2 (amended): encoding the decode of the raw register `0xAAAA` yields
exactly `0x02A8` (not `0xAAAA`), with the alias conversion-mode bit and the
status-flag bits not reproduced in the output. -/
theorem C2_lossy_roundtrip_amended :
    encodeConfig (decodeConfig 0xAAAA) = 0x02A8 := by decide

/-- C5: for every configuration, the encoded register has its two
least-significant bits zero, its four topmost bits (15..12) zero, and
receives no contribution from the four status flags. -/
theorem C5_encode_masks_read_only_bits (c : Config) :
    encodeConfig c % 4 = 0 ∧ encodeConfig c < 0x1000 ∧
      encodeConfig c.clearFlags = encodeConfig c := by
  obtain ⟨f1, f2, f3, f4, tcm, cct, avg, tam, ap, dras⟩ := c
  exact ⟨(encodeConfig_ofFields_masks tcm cct avg tam ap dras).1,
    (encodeConfig_ofFields_masks tcm cct avg tam ap dras).2, rfl⟩

/-- C8: decoding the register obtained by encoding a configuration yields a
configuration with the same six writable fields and all four status flags
`false`. -/
theorem C8_decode_after_encode_identity_on_writable_fields (c : Config) :
    decodeConfig (encodeConfig c) =
      { highAlertFlag := false, lowAlertFlag := false, dataReadyFlag := false,
        eepromBusyFlag := false,
        temperatureConversionMode := c.temperatureConversionMode,
        conversionCycleTime := c.conversionCycleTime,
        averages := c.averages,
        thermalAlertMode := c.thermalAlertMode,
        alertPolarity := c.alertPolarity,
        dataReadyAlertSelection := c.dataReadyAlertSelection } := by
  obtain ⟨f1, f2, f3, f4, tcm, cct, avg, tam, ap, dras⟩ := c
  exact decodeConfig_encodeConfig_ofFields tcm cct avg tam ap dras

/-- C1 counterexample: the all-absent (no-op) failure result of the partial
update is the very same value as a transport-failure result (both are the
absent optional), so the two are not distinguishable by the caller. -/
theorem C1_noop_indistinguishable_counterexample :
    ((Driver.mk i2cDead 0x48).setConfigPartial none none none none none none).1 =
      ((Driver.mk i2cDead 0x48).setConfigPartial (some .ONESHOT) none none none none
        none).1 := by decide

/-- C1 (amended): when every override is absent, the partial update fails by
returning the absent value — the same representation a transport failure
yields, hence not distinguishable by the caller — and zero transport calls
(no read, no write) are issued. -/
theorem C1_noop_request_fails_without_transport (t : Driver) :
    t.setConfigPartial none none none none none none = (none, []) := rfl

/-- C7: when the temperature-register read fails, `getTemperature` returns
the fixed sentinel `-256.0` — which equals the decoded minimum representable
register value `decode(0x8000)` — and when the read succeeds it returns the
decoded register value. -/
theorem C7_temperature_sentinel_on_failed_read (t : Driver) :
    (t.i2c.readFn t.deviceAddress TMP116_TEMP_REG_ADDR = none →
      t.getTemperature = (-256, [Event.read t.deviceAddress TMP116_TEMP_REG_ADDR]) ∧
        convertTemperatureRegisterToFloat 0x8000 = -256) ∧
    ∀ r, t.i2c.readFn t.deviceAddress TMP116_TEMP_REG_ADDR = some r →
      t.getTemperature = (convertTemperatureRegisterToFloat r,
        [Event.read t.deviceAddress TMP116_TEMP_REG_ADDR]) := by
  constructor
  · intro h
    refine ⟨by simp [Driver.getTemperature, h], ?_⟩
    norm_num [convertTemperatureRegisterToFloat, toInt16, TMP116_LSB_TEMPERATURE_RESOLUTION]
  · intro r h
    simp [Driver.getTemperature, h]

/-- Witness for C7 on a transport whose reads all fail. -/
theorem C7_temperature_sentinel_witness :
    (Driver.mk i2cDead 0x48).getTemperature =
        (-256, [Event.read 0x48 TMP116_TEMP_REG_ADDR]) ∧
      convertTemperatureRegisterToFloat 0x8000 = -256 :=
  (C7_temperature_sentinel_on_failed_read (Driver.mk i2cDead 0x48)).1 rfl

/-- C10: `dataReady` issues exactly one read of the configuration register
and no write; on a successful read of `r` it returns `some` of the bit
`0x2000` of `r`, and on a failed read it returns the absent value. -/
theorem C10_dataReady_reads_flag_bit (t : Driver) :
    (∀ r, t.i2c.readFn t.deviceAddress TMP116_CFGR_REG_ADDR = some r →
      t.dataReady = (some (decide (r &&& 0x2000 ≠ 0)),
        [Event.read t.deviceAddress TMP116_CFGR_REG_ADDR])) ∧
    (t.i2c.readFn t.deviceAddress TMP116_CFGR_REG_ADDR = none →
      t.dataReady = (none, [Event.read t.deviceAddress TMP116_CFGR_REG_ADDR])) := by
  constructor
  · intro r h
    simp [Driver.dataReady, getConfig_read_some t r h, decodeConfig]
  · intro h
    simp [Driver.dataReady, getConfig_read_none t h]

/-- Witness for C10 on a transport that reads `0x2220` (data-ready bit set). -/
theorem C10_dataReady_witness :
    (Driver.mk (i2cConst 0x2220) 0x48).dataReady =
      (some (decide ((0x2220 : Register) &&& 0x2000 ≠ 0)),
        [Event.read 0x48 TMP116_CFGR_REG_ADDR]) :=
  (C10_dataReady_reads_flag_bit (Driver.mk (i2cConst 0x2220) 0x48)).1 0x2220 rfl

/-- C4: with a strict non-empty subset of overrides present and a successful
read of `r`, if the merged candidate re-encodes to the same register as the
re-encoded just-read configuration, the partial update issues exactly one
read and zero writes and returns the candidate's encoded register. -/
theorem C4_merge_short_circuit (t : Driver)
    (tcm? : Option TemperatureConversionMode) (cct? : Option ConversionCycleTime)
    (avg? : Option Averages) (tam? : Option ThermalAlertModeSelect)
    (ap? : Option AlertPolarity) (dras? : Option DataReadyAlertPinSelect)
    (r : Register)
    (hread : t.i2c.readFn t.deviceAddress TMP116_CFGR_REG_ADDR = some r)
    (hsome : (tcm?.isSome || cct?.isSome || avg?.isSome || tam?.isSome ||
      ap?.isSome || dras?.isSome) = true)
    (hnotall : (tcm?.isSome && cct?.isSome && avg?.isSome && tam?.isSome &&
      ap?.isSome && dras?.isSome) = false)
    (hsc : encodeConfig ((decodeConfig r).applyOverrides tcm? cct? avg? tam? ap? dras?) =
      encodeConfig (decodeConfig r)) :
    t.setConfigPartial tcm? cct? avg? tam? ap? dras? =
      (some (encodeConfig ((decodeConfig r).applyOverrides tcm? cct? avg? tam? ap? dras?)),
        [Event.read t.deviceAddress TMP116_CFGR_REG_ADDR]) := by
  have hg := getConfig_read_some t r hread
  cases tcm? <;> cases cct? <;> cases avg? <;> cases tam? <;> cases ap? <;> cases dras? <;>
    simp_all [Driver.setConfigPartial]

/-- Witness for C4: current register `0x0220`, single override
`averages := AVG_8` (already the current value), one read, no write. -/
theorem C4_merge_short_circuit_witness :
    (Driver.mk (i2cConst 0x0220) 0x48).setConfigPartial none none (some .AVG_8)
        none none none =
      (some (encodeConfig ((decodeConfig 0x0220).applyOverrides none none
        (some .AVG_8) none none none)), [Event.read 0x48 TMP116_CFGR_REG_ADDR]) :=
  C4_merge_short_circuit (Driver.mk (i2cConst 0x0220) 0x48) none none (some .AVG_8)
    none none none 0x0220 rfl (by decide) (by decide) (by decide)

/-- C6: with current register `0x0220` and exactly the overrides
`thermalAlertMode := THERM`, `alertPolarity := ACTIVE_HIGH`,
`dataReadyAlertSelection := DATA_READY`, the partial update issues exactly
one read and one write, and the register written is `0x023C`. -/
theorem C6_merge_real_update (t : Driver)
    (hread : t.i2c.readFn t.deviceAddress TMP116_CFGR_REG_ADDR = some 0x0220) :
    t.setConfigPartial none none none (some .THERM) (some .ACTIVE_HIGH)
        (some .DATA_READY) =
      (t.i2c.writeFn t.deviceAddress TMP116_CFGR_REG_ADDR 0x023C,
        [Event.read t.deviceAddress TMP116_CFGR_REG_ADDR,
          Event.write t.deviceAddress TMP116_CFGR_REG_ADDR 0x023C]) := by
  have hg := getConfig_read_some t 0x0220 hread
  simp_all [Driver.setConfigPartial, Driver.setConfig]
  rw [if_neg (by decide)]
  rfl

/-- Witness for C6 on a transport that reads `0x0220` and echoes writes. -/
theorem C6_merge_real_update_witness :
    (Driver.mk (i2cConst 0x0220) 0x48).setConfigPartial none none none
        (some .THERM) (some .ACTIVE_HIGH) (some .DATA_READY) =
      ((i2cConst 0x0220).writeFn 0x48 TMP116_CFGR_REG_ADDR 0x023C,
        [Event.read 0x48 TMP116_CFGR_REG_ADDR,
          Event.write 0x48 TMP116_CFGR_REG_ADDR 0x023C]) :=
  C6_merge_real_update (Driver.mk (i2cConst 0x0220) 0x48) rfl

end TMP116
